import Mathlib

/-!
Verification development for the zebra-pdf tunnel lifecycle supervisor and
system-readiness coordinator.

The definitions below are a shallow embedding of the Python sources:
  * `src/zebra_print/database/models.py` and `db_manager.py` (persisted
    tunnel configuration records),
  * `src/zebra_print/tunnel/cloudflare_quick.py`, `cloudflare_named.py`,
    `ngrok.py` (tunnel providers),
  * `src/zebra_print/utils/process_manager.py` (process supervision),
  * `src/zebra_print/core/system_status.py` (readiness coordinator).

File-system state (PID files, log files), the process table and external
probe outcomes (pgrep, the cloudflared tunnel list, the ngrok local API)
are modelled as explicit world state threaded through each operation.
Only the Linux branches of the sources are modelled (the Windows branches
use taskkill/tasklist but are otherwise parallel).
-/

namespace ZebraPdf

/-! ### Database model

`TunnelConfig` mirrors the dataclass in `database/models.py`; the SQLite
table `tunnel_configs` of `db_manager.py` is modelled as a list of records
keyed by `name` (the primary key).  Timestamps are natural numbers.
`config_data` (a JSON blob in the source) is an opaque string. -/

structure TunnelConfig where
  name : String
  is_configured : Bool := false
  is_active : Bool := false
  current_url : Option String := none
  domain_mapping : Option String := none
  config_data : Option String := none
  updated_at : Nat := 0
  deriving Repr, DecidableEq

abbrev DB := List TunnelConfig

/-- `DatabaseManager.get_tunnel_config`: SELECT by primary key. -/
def get_tunnel_config (db : DB) (name : String) : Option TunnelConfig :=
  db.find? (fun c => c.name == name)

/-- `DatabaseManager.get_all_tunnel_configs`: SELECT all rows. -/
def get_all_tunnel_configs (db : DB) : List TunnelConfig := db

/-- `DatabaseManager.save_tunnel_config`: INSERT OR REPLACE of the whole
row (the row's `updated_at` is set to the current time). -/
def save_tunnel_config (db : DB) (cfg : TunnelConfig) (now : Nat) : DB :=
  if db.any (fun c => c.name == cfg.name) then
    db.map (fun c => if c.name == cfg.name then { cfg with updated_at := now } else c)
  else db ++ [{ cfg with updated_at := now }]

/-- `DatabaseManager.update_tunnel_status`: UPDATE of `is_active`,
`current_url` and `updated_at` on the row matching `name`; all other
columns are untouched. -/
def update_tunnel_status (db : DB) (name : String) (is_active : Bool)
    (current_url : Option String) (now : Nat) : DB :=
  db.map (fun c =>
    if c.name == name then
      { c with is_active := is_active, current_url := current_url, updated_at := now }
    else c)

/-! ### Shared helpers -/

/-- ASCII whitespace stripping, over the character list (kernel-
evaluable counterpart of Python `str.strip`). -/
def dropWs (l : List Char) : List Char :=
  l.dropWhile (fun c => c == ' ' || c == '\t' || c == '\n' || c == '\r')

def trimChars (l : List Char) : List Char :=
  dropWs ((dropWs l.reverse).reverse)

/-- Decimal digit parser (kernel-evaluable counterpart of Python
`int(...)` on a non-negative decimal string). -/
def parseDigitsAux (acc : Nat) : List Char → Option Nat
  | [] => some acc
  | c :: cs => if c.isDigit then parseDigitsAux (10 * acc + (c.toNat - 48)) cs else none

/-- Python `int(s.strip())` on PID-file content, as an `Option`
(`ValueError` on non-numeric content becomes `none`; PIDs are
non-negative, so signs are not modelled). -/
def parse_pid (s : String) : Option Nat :=
  match trimChars s.data with
  | [] => none
  | l => parseDigitsAux 0 l

/-- Python truthiness of an optional string: `None` and `""` are falsy. -/
def truthyStr : Option String → Bool
  | none => false
  | some s => !(s == "")

/-- Python f-string rendering of an optional value (`None` prints as
the four-letter word). -/
def pyStrOpt : Option String → String
  | some s => s
  | none => "None"

/-! ### Cloudflare Quick Tunnel (`tunnel/cloudflare_quick.py`)

World state: the provider's PID file and log file (content as raw
strings; `none` = file absent), the set of live PIDs, the database, the
in-memory `_tunnel_url`, plus environment inputs: the PID the OS would
assign to a freshly spawned child and the URL cloudflared would print
into the log file. -/

structure QuickWorld where
  pid_file : Option String := none
  log_file : Option String := none
  running : List Nat := []
  db : DB := []
  tunnel_url : Option String := none
  now : Nat := 0
  fresh_pid : Nat := 0
  spawn_log_url : Option String := none
  deriving Repr, DecidableEq

/-- `CloudflareQuickTunnel.is_active`: no PID file means inactive;
a readable live PID means active; a dead or unparsable PID triggers
stale-file cleanup (PID file and log file removed) and reports
inactive. -/
def quick_is_active (w : QuickWorld) : Bool × QuickWorld :=
  match w.pid_file with
  | none => (false, w)
  | some content =>
    match parse_pid content with
    | some pid =>
      if w.running.contains pid then (true, w)
      else (false, { w with pid_file := none, log_file := none })
    | none => (false, { w with pid_file := none, log_file := none })

/-- `CloudflareQuickTunnel.stop`: success if no PID file exists; on a
live PID the process group is SIGTERMed, both files are removed and the
database row is set inactive with the URL cleared; a dead PID makes
`os.getpgid` raise `ProcessLookupError`, which the blanket handler turns
into a failure result (files and database untouched). -/
def quick_stop (w : QuickWorld) : (Bool × String) × QuickWorld :=
  match w.pid_file with
  | none => ((true, "Tunnel not running"), w)
  | some content =>
    match parse_pid content with
    | none => ((false, "Failed to stop tunnel"), w)
    | some pid =>
      if w.running.contains pid then
        ((true, "Quick tunnel stopped"),
          { w with running := w.running.filter (fun p => p != pid),
                   pid_file := none, log_file := none, tunnel_url := none,
                   db := update_tunnel_status w.db "cloudflare_quick" false none w.now })
      else ((false, "Failed to stop tunnel"), w)

/-- `CloudflareQuickTunnel.start`: if `is_active()` and the stored record
holds a truthy `current_url`, return it without spawning; otherwise spawn
cloudflared (fresh PID appended to the process table, PID file
overwritten), wait for a trycloudflare URL in the log, and on success
record it in the database. -/
def quick_start (w : QuickWorld) : (Bool × String × Option String) × QuickWorld :=
  let (active, w1) := quick_is_active w
  let early : Option String :=
    if active then
      match get_tunnel_config w1.db "cloudflare_quick" with
      | some cfg => if truthyStr cfg.current_url then cfg.current_url else none
      | none => none
    else none
  match early with
  | some url => ((true, "Quick tunnel already running", some url), w1)
  | none =>
    let pid := w1.fresh_pid
    let w2 := { w1 with running := pid :: w1.running,
                        log_file := some (pyStrOpt w1.spawn_log_url),
                        pid_file := some (toString pid) }
    match w2.spawn_log_url with
    | none => ((false, "Failed to get tunnel URL (timeout after 30s)", none), w2)
    | some url =>
      let w3 := { w2 with tunnel_url := some url,
                          db := update_tunnel_status w2.db "cloudflare_quick" true (some url) w2.now }
      ((true, "Quick tunnel started", some url), w3)

/-! ### Cloudflare Named Tunnel (`tunnel/cloudflare_named.py`)

Extra environment inputs: the outcome of the `pgrep -f` process-table
scan for this tunnel's name and the outcome of the backend
`cloudflared tunnel list` connections check (method 3 of the health
check). -/

structure NamedWorld where
  pid_file : Option String := none
  running : List Nat := []
  db : DB := []
  custom_domain : Option String := none
  tunnel_name : String := "zebra-printer"
  local_port : Nat := 5000
  pgrep_ok : Bool := false
  tunnel_list_ok : Bool := false
  tunnel_url : Option String := none
  now : Nat := 0
  fresh_pid : Nat := 0
  deriving Repr, DecidableEq

/-- JSON `config_data` payload written by `set_custom_domain`
(canonical rendering of the two-field dict). -/
def named_config_data (tunnel_name : String) (local_port : Nat) : String :=
  "tunnel_name=" ++ tunnel_name ++ ";local_port=" ++ toString local_port

/-- `CloudflareNamedTunnel._verify_tunnel_health`: method 1 requires a
readable PID file whose PID is alive AND a successful pgrep scan; on any
failure there it falls through (no cleanup) to method 3, the backend
tunnel-list check.  The PID file is never removed. -/
def named_verify_tunnel_health (w : NamedWorld) : Bool :=
  let method1 :=
    match w.pid_file with
    | some content =>
      match parse_pid content with
      | some pid => w.running.contains pid && w.pgrep_ok
      | none => false
    | none => false
  method1 || w.tunnel_list_ok

/-- `CloudflareNamedTunnel.is_active`: delegates to the health check and
performs no state change whatsoever. -/
def named_is_active (w : NamedWorld) : Bool × NamedWorld :=
  (named_verify_tunnel_health w, w)

/-- `CloudflareNamedTunnel.set_custom_domain`: rejects an empty domain or
one without a dot (nothing else is validated); on success sets the
in-memory domain and INSERT-OR-REPLACEs the full configuration row with
`is_configured = true` and `domain_mapping = domain`. -/
def set_custom_domain (w : NamedWorld) (domain : String) : (Bool × String) × NamedWorld :=
  if domain == "" || !(domain.data.contains '.') then
    ((false, "Invalid domain format"), w)
  else
    let cfg : TunnelConfig :=
      { name := "cloudflare_named", is_configured := true, is_active := false,
        current_url := none, domain_mapping := some domain,
        config_data := some (named_config_data w.tunnel_name w.local_port) }
    ((true, "Custom domain set to: " ++ domain),
      { w with custom_domain := some domain,
               db := save_tunnel_config w.db cfg w.now })

/-- `CloudflareNamedTunnel.stop`: same shape as the quick provider's
`stop` (there is no log file to remove). -/
def named_stop (w : NamedWorld) : (Bool × String) × NamedWorld :=
  match w.pid_file with
  | none => ((true, "Tunnel not running"), w)
  | some content =>
    match parse_pid content with
    | none => ((false, "Failed to stop tunnel"), w)
    | some pid =>
      if w.running.contains pid then
        ((true, "Named tunnel stopped"),
          { w with running := w.running.filter (fun p => p != pid),
                   pid_file := none, tunnel_url := none,
                   db := update_tunnel_status w.db "cloudflare_named" false none w.now })
      else ((false, "Failed to stop tunnel"), w)

/-- `CloudflareNamedTunnel.start`: if already active, succeed immediately
with `https://{custom_domain}` and change nothing; otherwise require a
configured stored record, adopt its `domain_mapping` when truthy, spawn
cloudflared (fresh PID, PID file written), re-run the health check and
either fail (spawned state kept) or record the domain URL as active. -/
def named_start (w : NamedWorld) : (Bool × String × Option String) × NamedWorld :=
  if (named_is_active w).1 then
    ((true, "Named tunnel already running", some ("https://" ++ pyStrOpt w.custom_domain)), w)
  else
    match get_tunnel_config w.db "cloudflare_named" with
    | none => ((false, "Tunnel not configured. Run setup first.", none), w)
    | some stored =>
      if !stored.is_configured then
        ((false, "Tunnel not configured. Run setup first.", none), w)
      else
        let dom := if truthyStr stored.domain_mapping then stored.domain_mapping
                   else w.custom_domain
        let pid := w.fresh_pid
        let w2 := { w with custom_domain := dom, running := pid :: w.running,
                           pid_file := some (toString pid) }
        if !(named_verify_tunnel_health w2) then
          ((false, "Tunnel failed to start properly", none), w2)
        else
          let url := "https://" ++ pyStrOpt dom
          let w3 := { w2 with tunnel_url := some url,
                              db := update_tunnel_status w2.db "cloudflare_named" true (some url) w2.now }
          ((true, "Named tunnel started successfully", some url), w3)

/-! ### Ngrok Tunnel (`tunnel/ngrok.py`)

Environment inputs: whether the local ngrok API answers and the public
URL it would report. -/

structure NgrokWorld where
  pid_file : Option String := none
  running : List Nat := []
  tunnel_url : Option String := none
  api_available : Bool := false
  api_url : Option String := none
  fresh_pid : Nat := 0
  deriving Repr, DecidableEq

/-- `NgrokTunnel.is_active`: like the quick provider, but stale-state
cleanup removes only the PID file. -/
def ngrok_is_active (w : NgrokWorld) : Bool × NgrokWorld :=
  match w.pid_file with
  | none => (false, w)
  | some content =>
    match parse_pid content with
    | some pid =>
      if w.running.contains pid then (true, w)
      else (false, { w with pid_file := none })
    | none => (false, { w with pid_file := none })

/-- `NgrokTunnel._get_tunnel_url_from_api`. -/
def ngrok_get_url_from_api (w : NgrokWorld) : Option String :=
  if w.api_available then w.api_url else none

/-- `NgrokTunnel.get_status` (the fields the claims use): probes
`is_active` (which may clean stale files), reads the PID file, and when
no URL is cached but the tunnel is active and the API answers, fetches
and caches the URL. -/
structure NgrokStatus where
  active : Bool
  url : Option String
  pid : Option Nat
  api_available : Bool
  deriving Repr, DecidableEq

def ngrok_get_status (w : NgrokWorld) : NgrokStatus × NgrokWorld :=
  let (act, w1) := ngrok_is_active w
  let pid := match w1.pid_file with | some s => parse_pid s | none => none
  if !(truthyStr w1.tunnel_url) && act && w1.api_available then
    let u := ngrok_get_url_from_api w1
    ({ active := act, url := u, pid := pid, api_available := w1.api_available },
      { w1 with tunnel_url := u })
  else
    ({ active := act, url := w1.tunnel_url, pid := pid, api_available := w1.api_available }, w1)

/-- `NgrokTunnel.stop`: same shape as the cloudflare providers' `stop`,
without any database interaction. -/
def ngrok_stop (w : NgrokWorld) : (Bool × String) × NgrokWorld :=
  match w.pid_file with
  | none => ((true, "Tunnel not running"), w)
  | some content =>
    match parse_pid content with
    | none => ((false, "Failed to stop tunnel"), w)
    | some pid =>
      if w.running.contains pid then
        ((true, "Ngrok tunnel stopped"),
          { w with running := w.running.filter (fun p => p != pid),
                   pid_file := none, tunnel_url := none })
      else ((false, "Failed to stop tunnel"), w)

/-- `NgrokTunnel.start`: if already active, report the URL from
`get_status` without spawning; otherwise spawn ngrok (fresh PID, PID
file written) and ask the local API for the public URL. -/
def ngrok_start (w : NgrokWorld) : (Bool × String × Option String) × NgrokWorld :=
  let (active, w1) := ngrok_is_active w
  if active then
    let (st, w2) := ngrok_get_status w1
    ((true, "Tunnel already running", st.url), w2)
  else
    let pid := w1.fresh_pid
    let w2 := { w1 with running := pid :: w1.running, pid_file := some (toString pid) }
    match ngrok_get_url_from_api w2 with
    | some url =>
      ((true, "Ngrok tunnel started successfully", some url), { w2 with tunnel_url := some url })
    | none => ((false, "Tunnel started but URL not found", none), { w2 with tunnel_url := none })

/-! ### Process manager (`utils/process_manager.py`)

`terminate_process_group` is modelled against a single target process
group characterised by

  * `exists_now` — whether the group exists when the call is made
    (`os.getpgid` raises if not, and the handler returns success), and
  * `d : Option Nat` — how many seconds after SIGTERM the group takes to
    exit (`none` = it ignores SIGTERM).

The call's externally visible behaviour is captured as a trace of
actions (SIGTERM, the liveness polls at one-second intervals, SIGKILL)
together with the return value and the target's liveness after the call
returns. -/

/-- Whether the SIGTERMed group is still alive `t` seconds after the
signal, given its exit delay `d`. -/
def aliveAfterSigterm (d : Option Nat) (t : Nat) : Bool :=
  match d with
  | none => true
  | some k => decide (t < k)

inductive PAction where
  | sigterm
  | poll (t : Nat) (alive : Bool)
  | sigkill
  deriving Repr, DecidableEq

/-- The polling loop `for _ in range(timeout): if not is_process_running(pid):
return True; time.sleep(1)` — checks at seconds `t, t+1, ...`; returns the
poll trace and whether the process was never observed dead. -/
def poll_loop (d : Option Nat) : Nat → Nat → List PAction × Bool
  | _, 0 => ([], true)
  | t, fuel + 1 =>
    if aliveAfterSigterm d t then
      let rest := poll_loop d (t + 1) fuel
      (PAction.poll t true :: rest.1, rest.2)
    else ([PAction.poll t false], false)

structure TermResult where
  ok : Bool
  trace : List PAction
  final_alive : Bool
  deriving Repr, DecidableEq

/-- `ProcessManager.terminate_process_group`: SIGTERM the group, poll
liveness for up to `timeout` seconds, SIGKILL if it was never observed
dead, return `True`; `OSError`/`ProcessLookupError` (group already gone)
also returns `True`.  `final_alive` is the target's liveness just after
the call: killed groups are dead, and a group observed dead stays dead
(`aliveAfterSigterm` is antitone, proved below). -/
def terminate_process_group (exists_now : Bool) (d : Option Nat) (timeout : Nat) : TermResult :=
  if !exists_now then
    { ok := true, trace := [], final_alive := false }
  else
    let r := poll_loop d 0 timeout
    if r.2 then
      { ok := true, trace := PAction.sigterm :: r.1 ++ [PAction.sigkill], final_alive := false }
    else
      { ok := true, trace := PAction.sigterm :: r.1, final_alive := aliveAfterSigterm d timeout }

/-! ### System-readiness coordinator (`core/system_status.py`)

The coordinator sees each registered tunnel provider through the
`TunnelProvider` interface; a provider's observable behaviour during one
status aggregation is its name, permanence flag, the result of its
`is_active()` probe and the `url` entry of its `get_status()` dict. -/

structure ProviderView where
  name : String
  is_permanent : Bool
  active : Bool
  status_url : Option String
  deriving Repr, DecidableEq

structure SysWorld where
  api_running : Bool := false
  api_status : String := ""
  printer_ready : Bool := false
  printer_status : String := ""
  providers : List ProviderView := []
  active_tunnel_cache : Option ProviderView := none
  db : DB := []
  deriving Repr, DecidableEq

/-- `SystemStatus.get_active_tunnel`: a cached provider that still probes
active is returned as-is; otherwise every registered provider is probed
in order and the first active one is cached and returned (`none` resets
the cache). -/
def get_active_tunnel (w : SysWorld) : Option ProviderView × SysWorld :=
  match w.active_tunnel_cache with
  | some t =>
    if t.active then (some t, w)
    else
      match w.providers.find? (fun p => p.active) with
      | some t2 => (some t2, { w with active_tunnel_cache := some t2 })
      | none => (none, { w with active_tunnel_cache := none })
  | none =>
    match w.providers.find? (fun p => p.active) with
    | some t2 => (some t2, { w with active_tunnel_cache := some t2 })
    | none => (none, { w with active_tunnel_cache := none })

structure TunnelInfo where
  name : String
  is_permanent : Bool
  status_url : Option String
  configured : Bool
  deriving Repr, DecidableEq

structure OverallStatus where
  api_running : Bool
  api_details : Option String
  printer_ready : Bool
  printer_details : String
  tunnel : Option TunnelInfo
  integration_ready : Bool
  webhook_url : Option String
  deriving Repr, DecidableEq

/-- The `elif configured_tunnels:` branch of `get_overall_status`: show
the first persisted record with `is_configured`, its stored
`current_url` as the status URL. -/
def configured_fallback (configured_tunnels : List TunnelConfig) : Option TunnelInfo :=
  match configured_tunnels.head? with
  | some c =>
    some { name := c.name, is_permanent := c.name == "cloudflare_named",
           status_url := c.current_url, configured := true }
  | none => none

/-- The `webhook_url` entry: `{url}/print` when tunnel info is present
and its URL is truthy, else `None`. -/
def webhook_of (tunnel_info : Option TunnelInfo) : Option String :=
  match tunnel_info with
  | some ti =>
    if truthyStr ti.status_url then
      match ti.status_url with
      | some u => some (u ++ "/print")
      | none => none
    else none
  | none => none

/-- `SystemStatus.get_overall_status`: probes API and printer, resolves
the active tunnel, reads all persisted tunnel rows, builds the tunnel
info (live provider first, then the configured-but-inactive fallback),
and reports readiness and the webhook URL. -/
def get_overall_status (w : SysWorld) : OverallStatus × SysWorld :=
  let api_running := w.api_running
  let api_details := if api_running then some w.api_status else none
  let printer_ready := w.printer_ready
  let ⟨active_tunnel, w1⟩ := get_active_tunnel w
  let configured_tunnels := (get_all_tunnel_configs w1.db).filter (fun tc => tc.is_configured)
  let tunnel_info : Option TunnelInfo :=
    match active_tunnel with
    | some t =>
      if t.active then
        some { name := t.name, is_permanent := t.is_permanent,
               status_url := t.status_url, configured := true }
      else configured_fallback configured_tunnels
    | none => configured_fallback configured_tunnels
  let integration_ready := api_running && printer_ready && active_tunnel.isSome
  ({ api_running := api_running, api_details := api_details,
     printer_ready := printer_ready, printer_details := w.printer_status,
     tunnel := tunnel_info, integration_ready := integration_ready,
     webhook_url := webhook_of tunnel_info }, w1)

/-- `SystemStatus.is_system_ready`: the `integration_ready` field of the
overall status. -/
def is_system_ready (w : SysWorld) : Bool × SysWorld :=
  let ⟨s, w1⟩ := get_overall_status w
  (s.integration_ready, w1)

/-- `SystemStatus.get_recommended_actions`: one remediation string per
falsy status entry; the tunnel step is appended only when the status's
`tunnel` entry is `None`. -/
def get_recommended_actions (w : SysWorld) : List String × SysWorld :=
  let ⟨s, w1⟩ := get_overall_status w
  ((if !s.api_running then ["Start API server"] else []) ++
   (if !s.printer_ready then ["Check printer connection and status"] else []) ++
   (if s.tunnel.isNone then ["Set up and start tunnel (Cloudflare recommended)"] else []),
   w1)

/-! ### Exception behaviour of the coordinator

To settle whether `get_overall_status` guards against collaborator
exceptions, the same body is embedded in the `Except` monad: each
collaborator call either produces a value or raises.  The translation
mirrors the Python evaluation order; there is no `try/except` anywhere
in `SystemStatus`, so the embedding contains no handler either. -/

structure ProviderE where
  name : String
  is_permanent : Bool
  is_activeE : Except String Bool
  status_urlE : Except String (Option String)

structure SysCollab where
  api_is_runningE : Except String Bool
  api_get_statusE : Except String String
  printer_is_readyE : Except String Bool
  printer_get_statusE : Except String String
  providersE : List ProviderE
  active_cacheE : Option ProviderE := none
  db_readE : Except String DB

def scan_providersE : List ProviderE → Except String (Option ProviderE)
  | [] => Except.ok none
  | p :: ps => do
    let a ← p.is_activeE
    if a then pure (some p) else scan_providersE ps

/-- `get_active_tunnel` with raising probes. -/
def get_active_tunnelE (cache : Option ProviderE) (ps : List ProviderE) :
    Except String (Option ProviderE) :=
  match cache with
  | some t => do
    let a ← t.is_activeE
    if a then pure (some t) else scan_providersE ps
  | none => scan_providersE ps

/-- `get_overall_status` with raising collaborators, in Python
evaluation order.  Any raised exception propagates: no component's
status survives it. -/
def get_overall_statusE (c : SysCollab) : Except String OverallStatus := do
  let api_running ← c.api_is_runningE
  let api_details ← if api_running then (do
      let s ← c.api_get_statusE
      pure (some s))
    else pure none
  let printer_ready ← c.printer_is_readyE
  let printer_details ← c.printer_get_statusE
  let active_tunnel ← get_active_tunnelE c.active_cacheE c.providersE
  let db ← c.db_readE
  let configured_tunnels := db.filter (fun tc => tc.is_configured)
  let tunnel_info : Option TunnelInfo ←
    match active_tunnel with
    | some t => do
      let a ← t.is_activeE
      if a then do
        let u ← t.status_urlE
        pure (some { name := t.name, is_permanent := t.is_permanent,
                     status_url := u, configured := true })
      else pure (configured_fallback configured_tunnels)
    | none => pure (configured_fallback configured_tunnels)
  let integration_ready := api_running && printer_ready && active_tunnel.isSome
  pure { api_running := api_running, api_details := api_details,
         printer_ready := printer_ready, printer_details := printer_details,
         tunnel := tunnel_info, integration_ready := integration_ready,
         webhook_url := webhook_of tunnel_info }

/-! ### Concrete states used by the counterexamples and witnesses -/

/-- A quick-tunnel provider whose liveness probe fails. -/
def inactiveQuickView : ProviderView :=
  { name := "cloudflare_quick", is_permanent := false, active := false, status_url := none }

/-- A persisted record: configured, with a retained (stale) public URL. -/
def staleRecord : TunnelConfig :=
  { name := "cloudflare_quick", is_configured := true, is_active := true,
    current_url := some "https://stale-url.trycloudflare.com" }

/-- API and printer up, the only registered provider inactive, and the
database holding a configured record with a stale URL. -/
def staleSysWorld : SysWorld :=
  { api_running := true, printer_ready := true,
    providers := [inactiveQuickView], active_tunnel_cache := none,
    db := [staleRecord] }

/-- A named-tunnel world whose PID file names a dead process and whose
auxiliary probes (pgrep, tunnel list) both fail. -/
def staleNamedWorld : NamedWorld :=
  { pid_file := some "4242", running := [] }

/-- A quick-tunnel world whose PID file names a dead process. -/
def staleQuickWorld : QuickWorld :=
  { pid_file := some "4242", running := [] }

/-- An ngrok world whose PID file names a dead process. -/
def staleNgrokWorld : NgrokWorld :=
  { pid_file := some "4242", running := [] }

/-- A quick-tunnel world with a live tunnel process (PID 100) whose
persisted record lacks a URL; the environment would assign PID 200 to a
newly spawned child. -/
def activeNoUrlQuickWorld : QuickWorld :=
  { pid_file := some "100", running := [100],
    db := [{ name := "cloudflare_quick", is_configured := true, is_active := true,
             current_url := none }],
    fresh_pid := 200, spawn_log_url := some "https://second.trycloudflare.com" }

/-- A quick-tunnel world with no PID file but a persisted record still
marked active with a retained URL (the state left behind when the tunnel
process dies and `is_active()` cleans the PID file without touching the
database). -/
def oldUrlQuickWorld : QuickWorld :=
  { pid_file := none,
    db := [{ name := "cloudflare_quick", is_configured := true, is_active := true,
             current_url := some "https://old.trycloudflare.com" }] }

/-- A named-tunnel world that the backend tunnel-list check reports
healthy. -/
def liveNamedWorld : NamedWorld :=
  { tunnel_list_ok := true, custom_domain := some "printer.acme.test" }

/-- A persisted quick-tunnel record with a live URL. -/
def liveUrlRecord : TunnelConfig :=
  { name := "cloudflare_quick", is_configured := true, is_active := true,
    current_url := some "https://live-quick.trycloudflare.com" }

/-- A quick-tunnel world with a live process and a persisted URL. -/
def liveUrlQuickWorld : QuickWorld :=
  { pid_file := some "100", running := [100], db := [liveUrlRecord], now := 7 }

/-- An ngrok world with a live process. -/
def liveNgrokWorld : NgrokWorld :=
  { pid_file := some "100", running := [100] }

/-- A named-tunnel world with a live process and a persisted record. -/
def liveNamedStopWorld : NamedWorld :=
  { pid_file := some "100", running := [100], now := 9,
    db := [{ name := "cloudflare_named", is_configured := true, is_active := true,
             current_url := some "https://printer.acme.test",
             domain_mapping := some "printer.acme.test",
             config_data := some (named_config_data "zebra-printer" 5000) }] }

/-- API, printer and one tunnel provider all live. -/
def readySysWorld : SysWorld :=
  { api_running := true, printer_ready := true,
    providers := [{ name := "cloudflare_quick", is_permanent := false, active := true,
                    status_url := some "https://live.trycloudflare.com" }],
    active_tunnel_cache := none, db := [] }

/-- A provider whose probes all succeed, for the coordinator exception
scenario. -/
def okProviderE : ProviderE :=
  { name := "cloudflare_quick", is_permanent := false,
    is_activeE := Except.ok true,
    status_urlE := Except.ok (some "https://live.trycloudflare.com") }

/-- Collaborators in which only the API liveness probe raises. -/
def crashingCollab : SysCollab :=
  { api_is_runningE := Except.error "disk full",
    api_get_statusE := Except.ok "",
    printer_is_readyE := Except.ok true,
    printer_get_statusE := Except.ok "",
    providersE := [okProviderE],
    active_cacheE := none,
    db_readE := Except.ok [] }

/-! ### Counterexamples evaluating the code on concrete states -/

/-- Claim C1 counterexample: in `staleSysWorld` no provider's
`is_active()` probe succeeds, yet a persisted configured record with a
retained URL makes `get_overall_status()` synthesize
`webhook_url = {stale url}/print` instead of returning it absent. -/
theorem webhook_url_from_stale_record :
    (∀ p ∈ staleSysWorld.providers, p.active = false) ∧
    (∃ c ∈ staleSysWorld.db, c.is_configured = true ∧ c.current_url ≠ none) ∧
    ((get_overall_status staleSysWorld).1).webhook_url
      = some "https://stale-url.trycloudflare.com/print" := by
  refine ⟨by decide, ⟨staleRecord, by decide⟩, by decide⟩

/-- Claim C2 counterexample: in `staleSysWorld` no provider's
`is_active()` probe succeeds, yet `get_recommended_actions()` returns an
empty list — the tunnel remediation step is suppressed by the
configured-but-inactive persisted record. -/
theorem recommended_actions_missing_tunnel_step :
    (∀ p ∈ staleSysWorld.providers, p.active = false) ∧
    (get_recommended_actions staleSysWorld).1 = [] := by
  exact ⟨by decide, by decide⟩

/-- Claim C3 counterexample: when the API liveness probe raises,
`get_overall_status()` propagates the exception — it does not return any
status, degraded or otherwise, for the healthy printer/tunnel/database
collaborators. -/
theorem get_overall_statusE_crash :
    get_overall_statusE crashingCollab = Except.error "disk full" ∧
    ∀ s, get_overall_statusE crashingCollab ≠ Except.ok s := by
  have h : get_overall_statusE crashingCollab = Except.error "disk full" := rfl
  exact ⟨h, fun s hs => by rw [h] at hs; exact Except.noConfusion hs⟩

/-- Claim C4 counterexample: the named provider's `is_active()` returns
`false` on a stale PID file (dead PID 4242) but leaves the PID file in
place — no stale-state cleanup happens. -/
theorem named_is_active_keeps_stale_pid_file :
    parse_pid "4242" = some 4242 ∧
    staleNamedWorld.running.contains 4242 = false ∧
    (named_is_active staleNamedWorld).1 = false ∧
    ((named_is_active staleNamedWorld).2).pid_file = some "4242" := by
  refine ⟨by decide, by decide, by decide, by decide⟩

/-- Claim C5: `set_custom_domain` validates only that the domain is
non-empty and contains a dot; `"UPPER.COM"` and `"a b.com"` are accepted
(`ok=true`), contradicting the spec and the repository's own
`test_domain_input` tests, while the empty/dotless/valid cases behave as
specified (the valid case persists `domain_mapping` and
`is_configured`). -/
theorem set_custom_domain_validation_behaviour :
    (((set_custom_domain ({} : NamedWorld) "").1).1 = false) ∧
    (((set_custom_domain ({} : NamedWorld) "nodots").1).1 = false) ∧
    (((set_custom_domain ({} : NamedWorld) "UPPER.COM").1).1 = true) ∧
    (((set_custom_domain ({} : NamedWorld) "a b.com").1).1 = true) ∧
    (((set_custom_domain ({} : NamedWorld) "sub.example.com").1).1 = true) ∧
    get_tunnel_config ((set_custom_domain ({} : NamedWorld) "sub.example.com").2).db
        "cloudflare_named"
      = some { name := "cloudflare_named", is_configured := true, is_active := false,
               current_url := none, domain_mapping := some "sub.example.com",
               config_data := some (named_config_data "zebra-printer" 5000),
               updated_at := 0 } := by
  refine ⟨by decide, by decide, by decide, by decide, by decide, by decide⟩

/-- Claim C6 counterexample: the quick provider is active (live PID 100)
but its persisted record has no URL, so `start()` falls through the
early-return, spawns a second process (process count 1 → 2) and
overwrites the PID file (100 → 200). -/
theorem quick_start_spawns_second_process :
    (quick_is_active activeNoUrlQuickWorld).1 = true ∧
    activeNoUrlQuickWorld.running.length = 1 ∧
    ((quick_start activeNoUrlQuickWorld).1).1 = true ∧
    ((quick_start activeNoUrlQuickWorld).2).running.length = 2 ∧
    activeNoUrlQuickWorld.pid_file = some "100" ∧
    ((quick_start activeNoUrlQuickWorld).2).pid_file = some "200" := by
  refine ⟨by decide, by decide, by decide, by decide, by decide, by decide⟩

/-- Claim C7 counterexample: on a stale PID file (dead PID 4242) all
three providers' `stop()` returns `ok=false` — `os.getpgid` raises for
the dead PID and the blanket handler converts it into a failure — even
though nothing was running. -/
theorem stop_fails_on_stale_pid_file :
    staleQuickWorld.running = [] ∧ staleNamedWorld.running = [] ∧
    staleNgrokWorld.running = [] ∧
    ((quick_stop staleQuickWorld).1).1 = false ∧
    ((named_stop staleNamedWorld).1).1 = false ∧
    ((ngrok_stop staleNgrokWorld).1).1 = false := by
  refine ⟨by decide, by decide, by decide, by decide, by decide, by decide⟩

/-- Claim C10 counterexample: `stop()` on the quick provider with no PID
file returns `ok=true` but leaves the persisted record untouched — still
marked active and still retaining the last known public URL. -/
theorem quick_stop_success_retains_url :
    ((quick_stop oldUrlQuickWorld).1).1 = true ∧
    ((quick_stop oldUrlQuickWorld).2).db = oldUrlQuickWorld.db ∧
    get_tunnel_config ((quick_stop oldUrlQuickWorld).2).db "cloudflare_quick"
      = some { name := "cloudflare_quick", is_configured := true, is_active := true,
               current_url := some "https://old.trycloudflare.com" } := by
  refine ⟨by decide, by decide, by decide⟩

/-! ### Helper lemmas -/

theorem quick_is_active_eq_of_true (w : QuickWorld)
    (h : (quick_is_active w).1 = true) : quick_is_active w = (true, w) := by
  cases hf : w.pid_file with
  | none => simp [quick_is_active, hf] at h
  | some content =>
    cases hp : parse_pid content with
    | none => simp [quick_is_active, hf, hp] at h
    | some pid =>
      by_cases hc : pid ∈ w.running
      · simp [quick_is_active, hf, hp, hc]
      · simp [quick_is_active, hf, hp, hc] at h

theorem ngrok_is_active_eq_of_true (w : NgrokWorld)
    (h : (ngrok_is_active w).1 = true) : ngrok_is_active w = (true, w) := by
  cases hf : w.pid_file with
  | none => simp [ngrok_is_active, hf] at h
  | some content =>
    cases hp : parse_pid content with
    | none => simp [ngrok_is_active, hf, hp] at h
    | some pid =>
      by_cases hc : pid ∈ w.running
      · simp [ngrok_is_active, hf, hp, hc]
      · simp [ngrok_is_active, hf, hp, hc] at h

/-- `get_active_tunnel` returns the cached provider when still active,
else the first active registered provider; it only ever mutates the
cache field. -/
theorem get_active_tunnel_spec (w : SysWorld) :
    (get_active_tunnel w).1 =
      (match w.active_tunnel_cache with
       | some t => if t.active then some t else w.providers.find? (fun p => p.active)
       | none => w.providers.find? (fun p => p.active)) ∧
    ((get_active_tunnel w).2).db = w.db ∧
    ((get_active_tunnel w).2).providers = w.providers ∧
    ((get_active_tunnel w).2).api_running = w.api_running ∧
    ((get_active_tunnel w).2).printer_ready = w.printer_ready ∧
    ((get_active_tunnel w).2).api_status = w.api_status ∧
    ((get_active_tunnel w).2).printer_status = w.printer_status := by
  unfold get_active_tunnel
  cases hc : w.active_tunnel_cache with
  | none => cases hf : w.providers.find? (fun p => p.active) <;> simp [hf]
  | some t =>
    by_cases ht : t.active = true
    · simp [ht]
    · cases hf : w.providers.find? (fun p => p.active) <;> simp [ht, hf]

theorem find_active_isSome (ps : List ProviderView) :
    (ps.find? (fun p => p.active)).isSome = ps.any (fun p => p.active) := by
  cases hf : ps.find? (fun p => p.active) with
  | none =>
    simp only [Option.isSome_none]
    symm
    rw [List.any_eq_false]
    intro x hx
    exact List.find?_eq_none.mp hf x hx
  | some t =>
    simp only [Option.isSome_some]
    symm
    rw [List.any_eq_true]
    exact ⟨t, List.mem_of_find?_eq_some hf, List.find?_some hf⟩

theorem get_active_tunnel_isSome (w : SysWorld)
    (hcache : ∀ t, w.active_tunnel_cache = some t → t ∈ w.providers) :
    ((get_active_tunnel w).1).isSome = w.providers.any (fun p => p.active) := by
  rw [(get_active_tunnel_spec w).1]
  cases hc : w.active_tunnel_cache with
  | none => exact find_active_isSome _
  | some t =>
    by_cases ht : t.active = true
    · simp only [ht, if_true, Option.isSome_some]
      symm
      rw [List.any_eq_true]
      exact ⟨t, hcache t hc, ht⟩
    · simp only [ht, if_false, Bool.false_eq_true]
      exact find_active_isSome _

theorem get_active_tunnel_fst_active (w : SysWorld) (t : ProviderView)
    (h : (get_active_tunnel w).1 = some t) : t.active = true := by
  rw [(get_active_tunnel_spec w).1] at h
  cases hc : w.active_tunnel_cache with
  | none =>
    rw [hc] at h
    exact List.find?_some h
  | some t0 =>
    rw [hc] at h
    by_cases ht : t0.active = true
    · simp only [ht, if_true, Option.some.injEq] at h
      rw [← h]
      exact ht
    · simp only [ht, if_false, Bool.false_eq_true] at h
      exact List.find?_some h

theorem get_active_tunnel_none_of_inactive (w : SysWorld)
    (hcache : ∀ t, w.active_tunnel_cache = some t → t ∈ w.providers)
    (hnone : ∀ p ∈ w.providers, p.active = false) :
    (get_active_tunnel w).1 = none := by
  have hfind : w.providers.find? (fun p => p.active) = none :=
    List.find?_eq_none.mpr (fun x hx => by simp [hnone x hx])
  rw [(get_active_tunnel_spec w).1]
  cases hc : w.active_tunnel_cache with
  | none => exact hfind
  | some t => simp [hnone t (hcache t hc), hfind]

/-! ### Claim theorems (amended / confirmed statements) -/

/-- Claim C3 (amended): `get_overall_status` installs no exception
handler, so an exception raised by the API liveness probe propagates to
the caller unchanged; no degraded per-component status is produced. -/
theorem get_overall_statusE_propagates_error (c : SysCollab) (e : String)
    (h : c.api_is_runningE = Except.error e) :
    get_overall_statusE c = Except.error e := by
  unfold get_overall_statusE
  rw [h]
  rfl

theorem get_overall_statusE_propagates_error_witness :
    get_overall_statusE crashingCollab = Except.error "disk full" :=
  get_overall_statusE_propagates_error crashingCollab "disk full" rfl

/-- Claim C4 (amended): on a PID file naming a dead process, the quick
and ngrok providers' `is_active()` return `false` and remove the stale
PID file (the quick provider also removes its log file); the named
provider (see the counterexample) performs no such cleanup. -/
theorem stale_pid_cleanup_quick_ngrok :
    (∀ (w : QuickWorld) (content : String) (pid : Nat),
        w.pid_file = some content → parse_pid content = some pid →
        pid ∉ w.running →
        (quick_is_active w).1 = false ∧ ((quick_is_active w).2).pid_file = none ∧
        ((quick_is_active w).2).log_file = none) ∧
    (∀ (w : NgrokWorld) (content : String) (pid : Nat),
        w.pid_file = some content → parse_pid content = some pid →
        pid ∉ w.running →
        (ngrok_is_active w).1 = false ∧ ((ngrok_is_active w).2).pid_file = none) := by
  constructor
  · intro w content pid hf hp hd
    simp [quick_is_active, hf, hp, hd]
  · intro w content pid hf hp hd
    simp [ngrok_is_active, hf, hp, hd]

theorem stale_pid_cleanup_quick_ngrok_witness :
    ((quick_is_active staleQuickWorld).1 = false ∧
     ((quick_is_active staleQuickWorld).2).pid_file = none ∧
     ((quick_is_active staleQuickWorld).2).log_file = none) ∧
    ((ngrok_is_active staleNgrokWorld).1 = false ∧
     ((ngrok_is_active staleNgrokWorld).2).pid_file = none) :=
  ⟨stale_pid_cleanup_quick_ngrok.1 staleQuickWorld "4242" 4242 rfl (by decide) (by decide),
   stale_pid_cleanup_quick_ngrok.2 staleNgrokWorld "4242" 4242 rfl (by decide) (by decide)⟩

/-- Claim C7 (amended): each provider's `stop()` returns `ok=true` when
no PID file exists (nothing to do, state untouched); when the PID file
names a dead process, the `os.getpgid` lookup raises and the blanket
handler returns `ok=false`. -/
theorem stop_result_characterisation :
    (∀ w : QuickWorld, w.pid_file = none → quick_stop w = ((true, "Tunnel not running"), w)) ∧
    (∀ (w : QuickWorld) (content : String) (pid : Nat),
        w.pid_file = some content → parse_pid content = some pid →
        pid ∉ w.running → ((quick_stop w).1).1 = false) ∧
    (∀ w : NamedWorld, w.pid_file = none → named_stop w = ((true, "Tunnel not running"), w)) ∧
    (∀ (w : NamedWorld) (content : String) (pid : Nat),
        w.pid_file = some content → parse_pid content = some pid →
        pid ∉ w.running → ((named_stop w).1).1 = false) ∧
    (∀ w : NgrokWorld, w.pid_file = none → ngrok_stop w = ((true, "Tunnel not running"), w)) ∧
    (∀ (w : NgrokWorld) (content : String) (pid : Nat),
        w.pid_file = some content → parse_pid content = some pid →
        pid ∉ w.running → ((ngrok_stop w).1).1 = false) := by
  refine ⟨?_, ?_, ?_, ?_, ?_, ?_⟩
  · intro w h; simp [quick_stop, h]
  · intro w content pid hf hp hd; simp [quick_stop, hf, hp, hd]
  · intro w h; simp [named_stop, h]
  · intro w content pid hf hp hd; simp [named_stop, hf, hp, hd]
  · intro w h; simp [ngrok_stop, h]
  · intro w content pid hf hp hd; simp [ngrok_stop, hf, hp, hd]

theorem stop_result_characterisation_witness :
    quick_stop ({} : QuickWorld) = ((true, "Tunnel not running"), ({} : QuickWorld)) ∧
    ((quick_stop staleQuickWorld).1).1 = false ∧
    ((named_stop staleNamedWorld).1).1 = false ∧
    ((ngrok_stop staleNgrokWorld).1).1 = false :=
  ⟨stop_result_characterisation.1 ({} : QuickWorld) rfl,
   stop_result_characterisation.2.1 staleQuickWorld "4242" 4242 rfl (by decide) (by decide),
   stop_result_characterisation.2.2.2.1 staleNamedWorld "4242" 4242 rfl (by decide) (by decide),
   stop_result_characterisation.2.2.2.2.2 staleNgrokWorld "4242" 4242 rfl (by decide) (by decide)⟩

/-- Claim C10 (amended): a `stop()` that terminates a live process
reports success and rewrites the provider's database row to
`is_active = false`, `current_url = none` (URL discarded), leaving
`name`, `is_configured`, `domain_mapping` and `config_data` unchanged;
a `stop()` that finds no PID file reports success without touching the
database at all. -/
theorem stop_live_process_updates_record :
    (∀ (w : QuickWorld) (content : String) (pid : Nat),
        w.pid_file = some content → parse_pid content = some pid →
        pid ∈ w.running →
        ((quick_stop w).1).1 = true ∧
        ((quick_stop w).2).db = w.db.map (fun c =>
          if c.name == "cloudflare_quick" then
            { c with is_active := false, current_url := none, updated_at := w.now }
          else c)) ∧
    (∀ (w : NamedWorld) (content : String) (pid : Nat),
        w.pid_file = some content → parse_pid content = some pid →
        pid ∈ w.running →
        ((named_stop w).1).1 = true ∧
        ((named_stop w).2).db = w.db.map (fun c =>
          if c.name == "cloudflare_named" then
            { c with is_active := false, current_url := none, updated_at := w.now }
          else c)) ∧
    (∀ w : QuickWorld, w.pid_file = none →
        quick_stop w = ((true, "Tunnel not running"), w)) ∧
    (∀ w : NamedWorld, w.pid_file = none →
        named_stop w = ((true, "Tunnel not running"), w)) := by
  refine ⟨?_, ?_, ?_, ?_⟩
  · intro w content pid hf hp hl
    simp [quick_stop, update_tunnel_status, hf, hp, hl]
  · intro w content pid hf hp hl
    simp [named_stop, update_tunnel_status, hf, hp, hl]
  · intro w h; simp [quick_stop, h]
  · intro w h; simp [named_stop, h]

theorem stop_live_process_updates_record_witness :
    (((quick_stop liveUrlQuickWorld).1).1 = true ∧
     ((quick_stop liveUrlQuickWorld).2).db = liveUrlQuickWorld.db.map (fun c =>
        if c.name == "cloudflare_quick" then
          { c with is_active := false, current_url := none,
                   updated_at := liveUrlQuickWorld.now }
        else c)) ∧
    (((named_stop liveNamedStopWorld).1).1 = true ∧
     ((named_stop liveNamedStopWorld).2).db = liveNamedStopWorld.db.map (fun c =>
        if c.name == "cloudflare_named" then
          { c with is_active := false, current_url := none,
                   updated_at := liveNamedStopWorld.now }
        else c)) :=
  ⟨stop_live_process_updates_record.1 liveUrlQuickWorld "100" 100 rfl (by decide) (by decide),
   stop_live_process_updates_record.2.1 liveNamedStopWorld "100" 100 rfl (by decide) (by decide)⟩

/-- Claim C1 (amended): when no registered provider's `is_active()`
probe succeeds (and the cached active tunnel, always one of the
registered providers, is therefore inactive too), `webhook_url` is
computed from the first persisted `is_configured` record:
`{current_url}/print` when that record holds a non-empty URL — i.e. it
IS synthesized from persisted data alone — and absent only when no
configured record with a truthy URL exists. -/
theorem webhook_url_characterisation (w : SysWorld)
    (hcache : ∀ t, w.active_tunnel_cache = some t → t ∈ w.providers)
    (hnone : ∀ p ∈ w.providers, p.active = false) :
    ((get_overall_status w).1).webhook_url
      = webhook_of (configured_fallback (w.db.filter (fun tc => tc.is_configured))) := by
  have hAT := get_active_tunnel_none_of_inactive w hcache hnone
  have hdb := (get_active_tunnel_spec w).2.1
  cases hE : get_active_tunnel w with
  | mk at_ w1 =>
    rw [hE] at hAT hdb
    simp only at hAT hdb
    subst hAT
    simp [get_overall_status, hE, get_all_tunnel_configs, hdb]

theorem webhook_url_characterisation_witness :
    ((get_overall_status staleSysWorld).1).webhook_url
      = webhook_of (configured_fallback (staleSysWorld.db.filter (fun tc => tc.is_configured))) :=
  webhook_url_characterisation staleSysWorld (fun _ ht => Option.noConfusion ht) (by decide)

/-- Claim C2 (amended): `get_recommended_actions()` emits the API and
printer remediation steps exactly for the failing preconditions, but the
tunnel remediation step only when there is neither an active tunnel nor
any persisted `is_configured` record — a configured-but-inactive record
suppresses it. -/
theorem recommended_actions_characterisation (w : SysWorld)
    (hcache : ∀ t, w.active_tunnel_cache = some t → t ∈ w.providers) :
    (get_recommended_actions w).1 =
      (if w.api_running then [] else ["Start API server"]) ++
      (if w.printer_ready then [] else ["Check printer connection and status"]) ++
      (if !(w.providers.any (fun p => p.active))
          && (w.db.filter (fun tc => tc.is_configured)).isEmpty
       then ["Set up and start tunnel (Cloudflare recommended)"] else []) := by
  have hAT := get_active_tunnel_isSome w hcache
  have hdb := (get_active_tunnel_spec w).2.1
  cases hE : get_active_tunnel w with
  | mk at_ w1 =>
    rw [hE] at hAT hdb
    simp only at hAT hdb
    cases at_ with
    | some t =>
      have ht : t.active = true := get_active_tunnel_fst_active w t (by rw [hE])
      have hany : w.providers.any (fun p => p.active) = true := by
        simpa using hAT
      simp only [get_recommended_actions, get_overall_status, hE, ht, hany]
      simp [hany]
      cases w.api_running <;> cases w.printer_ready <;> simp
    | none =>
      have hany : w.providers.any (fun p => p.active) = false := by
        simpa using hAT.symm
      cases hfl : (w1.db.filter (fun tc => tc.is_configured)).head? with
      | some c =>
        have hne : (w.db.filter (fun tc => tc.is_configured)).isEmpty = false := by
          rw [← hdb]
          cases hl : w1.db.filter (fun tc => tc.is_configured) with
          | nil => rw [hl] at hfl; simp at hfl
          | cons a l => simp [hl]
        simp [get_recommended_actions, get_overall_status, hE, get_all_tunnel_configs,
              configured_fallback, hfl, hany, hne]
        cases w.api_running <;> cases w.printer_ready <;> simp
      | none =>
        have hem : (w.db.filter (fun tc => tc.is_configured)).isEmpty = true := by
          rw [← hdb]
          cases hl : w1.db.filter (fun tc => tc.is_configured) with
          | nil => simp
          | cons a l => rw [hl] at hfl; simp at hfl
        simp [get_recommended_actions, get_overall_status, hE, get_all_tunnel_configs,
              configured_fallback, hfl, hany, hem]
        cases w.api_running <;> cases w.printer_ready <;> simp

theorem recommended_actions_characterisation_witness :
    (get_recommended_actions staleSysWorld).1 =
      (if staleSysWorld.api_running then [] else ["Start API server"]) ++
      (if staleSysWorld.printer_ready then [] else ["Check printer connection and status"]) ++
      (if !(staleSysWorld.providers.any (fun p => p.active))
          && (staleSysWorld.db.filter (fun tc => tc.is_configured)).isEmpty
       then ["Set up and start tunnel (Cloudflare recommended)"] else []) :=
  recommended_actions_characterisation staleSysWorld (fun _ ht => Option.noConfusion ht)

/-- Claim C8 (confirmed): `is_system_ready()` and the
`integration_ready` field of `get_overall_status()` are true exactly
when the API probe, the printer probe and at least one registered
provider's `is_active()` probe all succeed (the cached active tunnel is
an invariant of the coordinator: always one of the registered
providers); hence they are false in each of the seven one-or-more-down
combinations. -/
theorem is_system_ready_characterisation (w : SysWorld)
    (hcache : ∀ t, w.active_tunnel_cache = some t → t ∈ w.providers) :
    (is_system_ready w).1
      = (w.api_running && w.printer_ready && w.providers.any (fun p => p.active)) ∧
    ((get_overall_status w).1).integration_ready
      = (w.api_running && w.printer_ready && w.providers.any (fun p => p.active)) := by
  have hAT := get_active_tunnel_isSome w hcache
  cases hE : get_active_tunnel w with
  | mk at_ w1 =>
    rw [hE] at hAT
    simp only at hAT
    constructor
    · simp [is_system_ready, get_overall_status, hE, hAT]
    · simp [get_overall_status, hE, hAT]

theorem is_system_ready_characterisation_witness :
    ((is_system_ready readySysWorld).1
       = (readySysWorld.api_running && readySysWorld.printer_ready
           && readySysWorld.providers.any (fun p => p.active)) ∧
     ((get_overall_status readySysWorld).1).integration_ready
       = (readySysWorld.api_running && readySysWorld.printer_ready
           && readySysWorld.providers.any (fun p => p.active))) ∧
    (is_system_ready readySysWorld).1 = true :=
  ⟨is_system_ready_characterisation readySysWorld (fun _ ht => Option.noConfusion ht),
   by decide⟩

/-- Claim C6 (amended): `start()` on an already-active provider returns
success without spawning for the named provider (state unchanged), for
the ngrok provider (process table and PID file unchanged), and for the
quick provider only when its persisted record holds a non-empty URL (the
counterexample shows that otherwise a second process is spawned). -/
theorem start_when_active_no_respawn :
    (∀ w : NamedWorld, (named_is_active w).1 = true →
        ((named_start w).1).1 = true ∧ (named_start w).2 = w) ∧
    (∀ (w : QuickWorld) (cfg : TunnelConfig),
        (quick_is_active w).1 = true →
        get_tunnel_config w.db "cloudflare_quick" = some cfg →
        truthyStr cfg.current_url = true →
        quick_start w = ((true, "Quick tunnel already running", cfg.current_url), w)) ∧
    (∀ w : NgrokWorld, (ngrok_is_active w).1 = true →
        ((ngrok_start w).1).1 = true ∧
        ((ngrok_start w).2).running = w.running ∧
        ((ngrok_start w).2).pid_file = w.pid_file) := by
  refine ⟨?_, ?_, ?_⟩
  · intro w h
    have hv : named_verify_tunnel_health w = true := h
    simp [named_start, named_is_active, hv]
  · intro w cfg h hcfg hurl
    have hqa := quick_is_active_eq_of_true w h
    cases hcu : cfg.current_url with
    | none => rw [hcu] at hurl; simp [truthyStr] at hurl
    | some u =>
      rw [hcu] at hurl
      simp [quick_start, hqa, hcfg, hcu, hurl]
  · intro w h
    have hqa := ngrok_is_active_eq_of_true w h
    by_cases hc : (truthyStr w.tunnel_url = false ∧ w.api_available = true)
    · simp [ngrok_start, ngrok_get_status, hqa, hc]
    · simp [ngrok_start, ngrok_get_status, hqa, hc]

theorem start_when_active_no_respawn_witness :
    (((named_start liveNamedWorld).1).1 = true ∧ (named_start liveNamedWorld).2 = liveNamedWorld) ∧
    quick_start liveUrlQuickWorld
      = ((true, "Quick tunnel already running", liveUrlRecord.current_url), liveUrlQuickWorld) ∧
    (((ngrok_start liveNgrokWorld).1).1 = true ∧
     ((ngrok_start liveNgrokWorld).2).running = liveNgrokWorld.running ∧
     ((ngrok_start liveNgrokWorld).2).pid_file = liveNgrokWorld.pid_file) :=
  ⟨start_when_active_no_respawn.1 liveNamedWorld (by decide),
   start_when_active_no_respawn.2.1 liveUrlQuickWorld liveUrlRecord
     (by decide) (by decide) (by decide),
   start_when_active_no_respawn.2.2 liveNgrokWorld (by decide)⟩

/-! ### Process-termination lemmas -/

theorem aliveAfterSigterm_mono (d : Option Nat) (t t2 : Nat)
    (h : aliveAfterSigterm d t = false) (hle : t ≤ t2) :
    aliveAfterSigterm d t2 = false := by
  cases d with
  | none => simp [aliveAfterSigterm] at h
  | some k =>
    simp only [aliveAfterSigterm, decide_eq_false_iff_not, Nat.not_lt] at h ⊢
    omega

theorem poll_loop_snd_false (d : Option Nat) :
    ∀ (fuel t : Nat), (poll_loop d t fuel).2 = false →
      aliveAfterSigterm d (t + fuel) = false := by
  intro fuel
  induction fuel with
  | zero => intro t h; simp [poll_loop] at h
  | succ n ih =>
    intro t h
    by_cases ha : aliveAfterSigterm d t = true
    · simp only [poll_loop, ha, if_true] at h
      have h2 := ih (t + 1) h
      have heq : t + 1 + n = t + (n + 1) := by omega
      rw [heq] at h2
      exact h2
    · have ha2 : aliveAfterSigterm d t = false := by
        cases hb : aliveAfterSigterm d t
        · rfl
        · exact absurd hb ha
      exact aliveAfterSigterm_mono d t (t + (n + 1)) ha2 (by omega)

theorem poll_loop_snd_true (d : Option Nat) :
    ∀ (fuel t : Nat), (poll_loop d t fuel).2 = true →
      ∀ i, i < fuel → aliveAfterSigterm d (t + i) = true := by
  intro fuel
  induction fuel with
  | zero => intro t _ i hi; exact absurd hi (by omega)
  | succ n ih =>
    intro t h i hi
    by_cases ha : aliveAfterSigterm d t = true
    · cases i with
      | zero => simpa using ha
      | succ j =>
        simp only [poll_loop, ha, if_true] at h
        have h2 := ih (t + 1) h j (by omega)
        have heq : t + 1 + j = t + (j + 1) := by omega
        rw [heq] at h2
        exact h2
    · simp only [poll_loop] at h
      rw [if_neg ha] at h
      simp at h

theorem sigkill_not_mem_poll_loop (d : Option Nat) :
    ∀ (fuel t : Nat), PAction.sigkill ∉ (poll_loop d t fuel).1 := by
  intro fuel
  induction fuel with
  | zero => intro t; simp [poll_loop]
  | succ n ih =>
    intro t
    by_cases ha : aliveAfterSigterm d t = true
    · simp only [poll_loop, ha, if_true]
      intro hmem
      rcases List.mem_cons.mp hmem with h1 | h2
      · exact PAction.noConfusion h1
      · exact ih (t + 1) h2
    · simp only [poll_loop]
      rw [if_neg ha]
      simp

/-- Claim C9 (confirmed): `terminate_process_group` always reports
success; the process group is dead after the call returns; when the
group existed the first action taken is the graceful SIGTERM; and the
forceful SIGKILL is issued only when the group was still alive at every
poll throughout the timeout window. -/
theorem terminate_process_group_spec (exists_now : Bool) (d : Option Nat) (timeout : Nat) :
    (terminate_process_group exists_now d timeout).ok = true ∧
    (terminate_process_group exists_now d timeout).final_alive = false ∧
    (exists_now = true →
      (terminate_process_group exists_now d timeout).trace.head? = some PAction.sigterm) ∧
    (PAction.sigkill ∈ (terminate_process_group exists_now d timeout).trace →
      (List.range timeout).all (fun t => aliveAfterSigterm d t) = true) := by
  cases exists_now with
  | false =>
    refine ⟨rfl, rfl, fun h => Bool.noConfusion h, fun h => ?_⟩
    simp [terminate_process_group] at h
  | true =>
    by_cases hr : (poll_loop d 0 timeout).2 = true
    · refine ⟨?_, ?_, ?_, ?_⟩
      · simp [terminate_process_group, hr]
      · simp [terminate_process_group, hr]
      · intro _
        simp [terminate_process_group, hr]
      · intro _
        rw [List.all_eq_true]
        intro x hx
        have h2 := poll_loop_snd_true d timeout 0 hr x (List.mem_range.mp hx)
        simpa using h2
    · have hr2 : (poll_loop d 0 timeout).2 = false := by
        cases hb : (poll_loop d 0 timeout).2
        · rfl
        · exact absurd hb hr
      refine ⟨?_, ?_, ?_, ?_⟩
      · simp [terminate_process_group, hr2]
      · have h2 := poll_loop_snd_false d timeout 0 hr2
        simp only [Nat.zero_add] at h2
        simp [terminate_process_group, hr2, h2]
      · intro _
        simp [terminate_process_group, hr2]
      · intro hmem
        simp only [terminate_process_group, hr2] at hmem
        exfalso
        simp only [Bool.not_true] at hmem
        rw [if_neg (by simp)] at hmem
        simp only [Bool.false_eq_true, if_false] at hmem
        rcases List.mem_cons.mp hmem with h1 | h2
        · exact PAction.noConfusion h1
        · exact sigkill_not_mem_poll_loop d timeout 0 h2

theorem terminate_process_group_spec_witness :
    (terminate_process_group true none 2).ok = true ∧
    (terminate_process_group true none 2).final_alive = false ∧
    (terminate_process_group true none 2).trace.head? = some PAction.sigterm ∧
    (List.range 2).all (fun t => aliveAfterSigterm none t) = true :=
  ⟨(terminate_process_group_spec true none 2).1,
   (terminate_process_group_spec true none 2).2.1,
   (terminate_process_group_spec true none 2).2.2.1 rfl,
   (terminate_process_group_spec true none 2).2.2.2 (by decide)⟩

end ZebraPdf
